import Mathlib

/-!
# Verification of the CAPI position-reconciliation engine

A shallow embedding of the decision and execution pipeline of `app/main.py`:
the signal gate, symbol sanitization, position-snapshot normalization, the
believed-position (oracle) logic, rotation (close-then-open), reservation
insertion, order-response classification, and the final ledger updates of the
`/webhook` and `/open-position` handlers.

Conventions of the embedding:
* Python floats are modelled as `Rat`; Python `None` as `Option.none`.
* Python truthiness on strings ("" is falsy) and numbers (0 is falsy) is made
  explicit through the `pyOr*` / `truthy*` helpers below.
* The trade ledger (DB table `trades`) is a `List TradeRecord` kept
  newest-first: inserts prepend, so `order_by created_at desc` queries read
  the list front to back.
* Network effects (Bitget position snapshots, market-price lookups, order
  placement and close outcomes) are resolved into an explicit `Env` record;
  the handler logic downstream of those calls is translated faithfully.
-/

namespace CAPI

/-- Trade-record lifecycle statuses stored in the `status` column. -/
inductive Status where
  | signalLog   -- "signal"
  | received    -- "received"
  | placed      -- "placed"
  | closed      -- "closed"
  | error       -- "error"
  | ignored     -- "ignored"
  deriving DecidableEq, Repr

/-- One row of the `trades` table (`sqlalchemy.Table("trades", ...)`). -/
structure TradeRecord where
  id : String
  signal : String
  symbol : String
  price : Rat
  size : Rat
  size_usd : Option Rat
  leverage : Option Rat
  margin : Option Rat
  liquidation_price : Option Rat
  exit_price : Option Rat
  realized_pnl : Option Rat
  status : Status
  response : String
  reservation_key : Option String
  pine_trade_index : Option Int
  created_at : Nat
  deriving DecidableEq, Repr

/-- Python `a or b` on optional strings: `a` unless it is `None` or `""`. -/
def pyOrStr (a b : Option String) : Option String :=
  match a with
  | some s => if s = "" then b else some s
  | none => b

/-- Python truthiness of an optional string (`None` and `""` are falsy). -/
def truthyStr (a : Option String) : Bool :=
  match a with
  | some s => s ≠ ""
  | none => false

/-- Python `a or b` on optional numbers: `a` unless it is `None` or `0`. -/
def pyOrRat (a b : Option Rat) : Option Rat :=
  match a with
  | some q => if q = 0 then b else some q
  | none => b

/-- Python truthiness of an optional number (`None` and `0` are falsy). -/
def truthyRat (a : Option Rat) : Bool :=
  match a with
  | some q => q ≠ 0
  | none => false

/-! ## Executable rational arithmetic

Python float arithmetic is modelled exactly on `Rat`.  The bundled `Rat`
operations do not reduce inside the kernel, so the embedding uses its own
cross-multiplication forms (provably equal to the bundled ones below), which
evaluate by `decide`. -/

/-- `a + b` via `mkRat`. -/
def radd (a b : Rat) : Rat :=
  mkRat (a.num * (b.den : Int) + b.num * (a.den : Int)) (a.den * b.den)

/-- `a - b` via `mkRat`. -/
def rsub (a b : Rat) : Rat :=
  mkRat (a.num * (b.den : Int) - b.num * (a.den : Int)) (a.den * b.den)

/-- `a * b` via `mkRat`. -/
def rmul (a b : Rat) : Rat := mkRat (a.num * b.num) (a.den * b.den)

/-- `a / b` via `Rat.divInt` (0 when `b = 0`; callers guard the divisor as
the source does). -/
def rdiv (a b : Rat) : Rat := Rat.divInt (a.num * (b.den : Int)) ((a.den : Int) * b.num)

/-! ## Executable string operations

The bundled `String.toUpper`, `trim`, `replace`, `startsWith` are loop-based
and do not reduce inside the kernel; the embedding works on `List Char`
instead.  Python string methods are translated at ASCII fidelity. -/

/-- `str.upper()`. -/
def upperS (s : String) : String := String.mk (s.data.map Char.toUpper)

/-- `str.lower()`. -/
def lowerS (s : String) : String := String.mk (s.data.map Char.toLower)

/-- `str.strip()`. -/
def trimS (s : String) : String :=
  String.mk (((s.data.dropWhile Char.isWhitespace).reverse.dropWhile
    Char.isWhitespace).reverse)

/-- `s[n:]`. -/
def dropS (s : String) (n : Nat) : String := String.mk (s.data.drop n)

/-- `str.startswith(pre)`. -/
def startsWithS (s pre : String) : Bool := pre.data.isPrefixOf s.data

/-- `str.endswith(suf)`. -/
def endsWithS (s suf : String) : Bool := suf.data.isSuffixOf s.data

/-- Single left-to-right pass of `str.replace(pat, "")`-style substitution,
fuelled by the input length (structural recursion so the kernel can run it). -/
def replaceFuel (pat rep : List Char) : Nat → List Char → List Char
  | 0, l => l
  | Nat.succ n, l =>
    match l with
    | [] => []
    | c :: rest =>
      if pat.isPrefixOf (c :: rest) then
        rep ++ replaceFuel pat rep n ((c :: rest).drop pat.length)
      else c :: replaceFuel pat rep n rest

/-- `str.replace(pat, rep)` for a non-empty pattern. -/
def replaceS (s pat rep : String) : String :=
  if pat.data = [] then s
  else String.mk (replaceFuel pat.data rep.data s.data.length s.data)

/-! ## Symbol sanitization (`normalize_exchange_symbol`, `sanitize_symbol_for_bitget`) -/

/-- Character class of `re.sub(r"[^A-Z0-9_]", "", ...)`: the characters that
survive the sanitization filter (codepoints of `A`–`Z`, `0`–`9` and `_`). -/
def isSymChar (c : Char) : Bool :=
  (65 ≤ c.toNat && c.toNat ≤ 90) || (48 ≤ c.toNat && c.toNat ≤ 57) || c.toNat = 95

/-- `normalize_exchange_symbol`: strip venue marks `BITGET:` / `BINANCE:`,
remove spaces and uppercase.  Returns `none` only for a `None` input. -/
def normalize_exchange_symbol (value : Option String) : Option String :=
  match value with
  | none => none
  | some v =>
    let normalized := trimS v
    if normalized = "" then some normalized
    else
      let upper := upperS normalized
      let normalized :=
        if startsWithS upper "BITGET:" then dropS normalized 7 else normalized
      let upper := upperS normalized
      let normalized :=
        if startsWithS upper "BINANCE:" then dropS normalized 8 else normalized
      let normalized := replaceS normalized " " ""
      some (upperS normalized)

/-- Lines 564–570 of `sanitize_symbol_for_bitget`: keep a cleaned symbol that
already ends in `USDT`, append `USDT` to a purely alphabetic base-currency
code, return anything else unchanged. -/
def sanitize_finish (cleaned : String) : String :=
  if cleaned ≠ "" && endsWithS (upperS cleaned) "USDT" then cleaned
  else if cleaned ≠ "" && cleaned.toList.all Char.isAlpha then cleaned ++ "USDT"
  else cleaned

/-- `sanitize_symbol_for_bitget`: drop slashes and the perpetual `.P` / `.p`
decorations, keep only `[A-Z0-9_]`, and append `USDT` to a purely alphabetic
base-currency code that does not already end in `USDT`. -/
def sanitize_symbol_for_bitget (value : Option String) : String :=
  let normalized := (pyOrStr (normalize_exchange_symbol value) (some "")).getD ""
  let cleaned := replaceS (replaceS (replaceS normalized "/" "") ".P" "") ".p" ""
  sanitize_finish (String.mk (cleaned.toList.filter isSymChar))

/-- `get_bitget_symbol` is `sanitize_symbol_for_bitget` on a present string. -/
def get_bitget_symbol (symbol : String) : String :=
  sanitize_symbol_for_bitget (some symbol)

/-! ## Position snapshots (`normalize_bitget_position`) -/

/-- A JSON value stored in a Bitget position payload.  Values that Python's
`float()` accepts (numbers and numeric strings) are encoded as `vnum`; other
strings as `vstr`; JSON `null` as `vnull`. -/
inductive SnapVal where
  | vnum (q : Rat)
  | vstr (s : String)
  | vnull
  deriving DecidableEq, Repr

/-- A raw Bitget position payload: the JSON object as a key/value list. -/
abbrev Snapshot := List (String × SnapVal)

/-- Python `key in snapshot` / `snapshot.get(key)` combined. -/
def snapLookup (snap : Snapshot) (key : String) : Option SnapVal :=
  (snap.find? (fun kv => kv.1 = key)).map (fun kv => kv.2)

/-- `safe_float` applied to a snapshot value. -/
def snapFloat : SnapVal → Option Rat
  | SnapVal.vnum q => some q
  | SnapVal.vstr _ => none
  | SnapVal.vnull => none

/-- `pick_float(*keys)`: first key present whose value converts to a float. -/
def pickFloat (snap : Snapshot) (keys : List String) : Option Rat :=
  keys.findSome? (fun k => (snapLookup snap k).bind snapFloat)

/-- `pick_str(*keys)`: first key present with a non-`None` value; strings are
stripped and skipped when blank, non-strings are stringified. -/
def pickStr (snap : Snapshot) (keys : List String) : Option String :=
  keys.findSome? (fun k =>
    match snapLookup snap k with
    | some (SnapVal.vstr s) => if trimS s = "" then none else some (trimS s)
    | some (SnapVal.vnum q) => some (toString q)
    | some SnapVal.vnull => none
    | none => none)

/-- The fields of the normalized position dict that the decision logic reads,
together with those that decide whether the dict is returned at all
(`size`, `size_usd`, `unrealized_pnl`).  `none` models a key dropped by the
`cleaned` filter. -/
structure NormalizedPosition where
  side : Option String
  size : Option Rat
  size_usd : Option Rat
  unrealized_pnl : Option Rat
  deriving DecidableEq, Repr

/-- `normalize_bitget_position`: extract side and size from the heterogeneous
snapshot keys; return `none` when nothing meaningful was extracted (no size,
no notional value, no unrealized PnL). -/
def normalize_bitget_position (snap : Snapshot) : Option NormalizedPosition :=
  let side := (pickStr snap ["holdSide", "side", "positionSide", "direction"]).map lowerS
  let size0 := pickFloat snap
    ["total", "holdAmount", "holdSize", "position", "size", "pos", "baseSize",
     "available", "quantity"]
  let size :=
    match size0 with
    | some s => some s
    | none =>
      let longHold := pickFloat snap ["longTotal", "longHold", "longQty"]
      let shortHold := pickFloat snap ["shortTotal", "shortHold", "shortQty"]
      if (side = some "long" ∨ side = some "buy") ∧ longHold ≠ none then longHold
      else if (side = some "short" ∨ side = some "sell") ∧ shortHold ≠ none then shortHold
      else if longHold ≠ none ∧ shortHold = none then longHold
      else if shortHold ≠ none ∧ longHold = none then shortHold
      else none
  let avgOpen := pickFloat snap
    ["openAvgPrice", "avgOpenPrice", "avgPrice", "averagePrice", "entry_price", "entryPrice"]
  let mark := pickFloat snap
    ["markPrice", "marketPrice", "currentPrice", "lastPrice", "mark", "markPx"]
  let unrealized := pickFloat snap ["unrealizedPL", "unrealizedPnl", "unrealizedProfit"]
  let notional := pickFloat snap
    ["notionalUsd", "positionValue", "quoteSize", "value", "positionValueUsd"]
  let sizeUsd := pickFloat snap ["notionalUsd", "positionUsd", "totalValue", "valueUsd"]
  let notional :=
    match notional, size, avgOpen with
    | none, some s, some a => some (rmul s a)
    | n, _, _ => n
  let notional :=
    match notional, size, mark with
    | none, some s, some m => some (rmul s m)
    | n, _, _ => n
  let sizeUsd := match sizeUsd with | none => notional | s => s
  if size = none ∧ sizeUsd = none ∧ unrealized = none then none
  else some { side := side, size := size, size_usd := sizeUsd, unrealized_pnl := unrealized }

/-! ## Order-response classification -/

/-- The shape of `json.loads(resp_text)` as far as classification reads it:
either a JSON object (keeping only the `code` / `status` fields) or some
non-object value.  A text that fails to parse becomes the object
`{"raw": resp_text}`, i.e. `obj none none`. -/
inductive ParsedResp where
  | obj (code : Option String) (statusField : Option String)
  | nonObj
  deriving DecidableEq, Repr

/-- `bitget_code = parsed.get("code") or parsed.get("status")` (only when
`parsed` is a dict). -/
def bitget_response_code (parsed : Option ParsedResp) : Option String :=
  match parsed with
  | some (ParsedResp.obj c s) => pyOrStr c s
  | _ => none

/-- `is_success = status_code == 200 and (not bitget_code or str(bitget_code)
== "00000")`: transport success plus a missing/blank or success provider
code. -/
def order_success (status_code : Nat) (parsed : Option ParsedResp) : Bool :=
  decide (status_code = 200) &&
    (!truthyStr (bitget_response_code parsed) ||
      decide (bitget_response_code parsed = some "00000"))

/-- `new_status = "placed" if is_success else "error"`. -/
def order_new_status (status_code : Nat) (parsed : Option ParsedResp) : Status :=
  if order_success status_code parsed then Status.placed else Status.error

/-! ## Ledger queries and updates -/

/-- `trades.select().where(status == "placed" & symbol == s)` ordered by
`created_at desc`: the ledger is newest-first, so the filtered list is already
in recency order. -/
def placed_rows_for_symbol (ledger : List TradeRecord) (symbol : String) :
    List TradeRecord :=
  ledger.filter (fun r => decide (r.status = Status.placed ∧ r.symbol = symbol))

/-- `trades.update().where(id == tradeId).values(...)`. -/
def db_update (ledger : List TradeRecord) (tradeId : String)
    (f : TradeRecord → TradeRecord) : List TradeRecord :=
  ledger.map (fun r => if r.id = tradeId then f r else r)

/-- `symbol = sanitize_symbol_for_bitget(raw) or (normalize_exchange_symbol(raw)
or "")`, as computed by both handlers and by the close helper. -/
def effective_symbol (raw : String) : String :=
  (pyOrStr (some (sanitize_symbol_for_bitget (some raw)))
    (pyOrStr (normalize_exchange_symbol (some raw)) (some ""))).getD ""

/-! ## The believed current position (Position Oracle) -/

/-- Lines 2598–2626 of `webhook` (and the identical block of the SIGNAL
branch): derive `(current_direction, current_size)` from the normalized
exchange snapshot, falling back to the most recent `placed` ledger row only
when no normalized snapshot exists at all. -/
def derive_current_position (snapshot : Option Snapshot) (ledger : List TradeRecord)
    (symbol : String) : Option String × Option Rat :=
  let np := snapshot.bind normalize_bitget_position
  let fromSnap : Option String × Option Rat :=
    match np with
    | some n =>
      match n.size with
      | some sz =>
        if sz ≠ 0 then
          if sz > 0 then
            let sideVal := lowerS (n.side.getD "")
            let dir :=
              if sideVal = "long" ∨ sideVal = "buy" then some "long"
              else if sideVal = "short" ∨ sideVal = "sell" then some "short"
              else none
            (dir, some sz)
          else (none, none)
        else (none, none)
      | none => (none, none)
    | none => (none, none)
  if (¬ truthyStr fromSnap.1 ∨ ¬ truthyRat fromSnap.2) ∧ np = none then
    match placed_rows_for_symbol ledger symbol with
    | [] => fromSnap
    | existing :: _ =>
      let dbSignal := upperS existing.signal
      let dir :=
        if dbSignal = "LONG" then some "long"
        else if dbSignal = "SHORT" then some "short"
        else fromSnap.1
      let size := pyOrRat (some existing.size) (pyOrRat existing.size_usd fromSnap.2)
      (dir, size)
  else fromSnap

/-! ## External-effect environment -/

/-- One exchange call performed while handling a signal.  Position and price
queries are read-only and not listed; these three mutate (or attempt to
mutate) exchange state. -/
inductive ExCall where
  | placeOrder (symbol side : String) (size : Option Rat)
  | closeOrder (tradeId : String)
  | cancelOrders (symbol : String)
  deriving DecidableEq, Repr

/-- Whether an exchange call is an order placement (used to state that a code
path performs no opening order). -/
def is_place_call : ExCall → Bool
  | ExCall.placeOrder _ _ _ => true
  | _ => false

/-- The resolved outcomes of every external call one handler run can make.
`close_ok` also covers the source's "no remaining position detected" path,
which likewise reports the close as successful. -/
structure Env where
  /-- `fetch_bitget_position`: `none` on dry-run, failure, timeout or an
  empty reply. -/
  snapshot : Option Snapshot
  /-- `get_market_price_with_retries` per symbol (`none` = all attempts
  failed). -/
  market_price : String → Option Rat
  /-- Whether the close order for a given trade id is accepted. -/
  close_ok : String → Bool
  /-- A fill price embedded in the close response, per trade id. -/
  close_resp_price : String → Option Rat
  /-- `place_demo_order` transport status code. -/
  place_status : Nat
  /-- The parsed body of the placement response. -/
  place_parsed : Option ParsedResp
  /-- When `some msg`, `place_demo_order` raises instead of returning. -/
  place_raises : Option String
  /-- The raw `resp_text` stored in the `response` column. -/
  raw_response : String
  /-- `DEFAULT_LEVERAGE` (10.0 unless configured). -/
  default_leverage : Option Rat
  /-- Wall-clock timestamp recorded in `created_at`. -/
  now : Nat
  /-- The `uuid4` generated for this request. -/
  fresh_id : String

/-! ## Closing a position (`close_existing_bitget_position`) -/

/-- The DB side-effect and outcome of `close_existing_bitget_position`: on an
accepted close the row is marked `closed` with its reservation cleared, and
`exit_price` / `realized_pnl` are recorded when a closing price is available
(from the order response, else the market); on a failed close the row is left
untouched.  The network interaction (reduce-only retry, dry-run) is abstracted
into `env.close_ok` / `env.close_resp_price`. -/
def close_existing_bitget_position (env : Env) (row : TradeRecord) :
    Bool × (TradeRecord → TradeRecord) :=
  if env.close_ok row.id then
    let sym := effective_symbol row.symbol
    let closing :=
      match env.close_resp_price row.id with
      | some c => some c
      | none => env.market_price sym
    let entry := row.price
    let sizeVal :=
      if row.size ≤ 0 ∧ truthyRat row.size_usd ∧ entry ≠ 0 then
        rdiv (row.size_usd.getD 0) entry
      else row.size
    let upd : TradeRecord → TradeRecord := fun r0 =>
      let r1 := { r0 with status := Status.closed, reservation_key := none }
      match closing with
      | some c =>
        let dir : Rat := if upperS row.signal = "BUY" ∨ upperS row.signal = "LONG"
          then 1 else -1
        { r1 with exit_price := some c,
                  realized_pnl := some (rmul (rmul (rsub c entry) sizeVal) dir) }
      | none => r1
    (true, upd)
  else (false, id)

/-! ## Rotation (`close_open_positions_for_rotation`) -/

/-- The running state of a rotation: ids closed so far, ids whose close
failed, the evolving ledger, the broadcast events and exchange calls made. -/
structure RotationOutcome where
  closed : List String
  failed : List String
  ledger : List TradeRecord
  events : List String
  calls : List ExCall
  deriving DecidableEq, Repr

/-- One iteration of the rotation loop (lines 1262–1335): patch the row size
from its notional when needed, attempt the close, and on success record
`closed` status plus exit price / realized PnL derived from the best available
closing price. -/
def rotation_close_row (env : Env) (new_symbol : String)
    (fallback_price payload_price : Option Rat) (acc : RotationOutcome)
    (row : TradeRecord) : RotationOutcome :=
  -- `if (size is None or size <= 0) and price not in (None, 0): size = |size_usd/price|`
  let sizeFix :=
    if row.size ≤ 0 ∧ row.price ≠ 0 then
      match row.size_usd with
      | some u => |rdiv u row.price|
      | none => row.size
    else row.size
  let row' := if sizeFix > 0 then { row with size := sizeFix } else row
  let (ok, upd) := close_existing_bitget_position env row'
  let acc := { acc with calls := acc.calls ++ [ExCall.closeOrder row.id] }
  if ¬ ok then { acc with failed := acc.failed ++ [row.id] }
  else
    let acc := { acc with ledger := db_update acc.ledger row.id upd }
    let symbolForRow := trimS row.symbol
    let closingPrice :=
      if symbolForRow ≠ "" ∧ new_symbol ≠ "" ∧ symbolForRow = new_symbol ∧
          fallback_price ≠ none then fallback_price
      else none
    let closingPrice :=
      match closingPrice with
      | some c => some c
      | none => payload_price
    let closingPrice :=
      match closingPrice with
      | some c => some c
      | none => if symbolForRow ≠ "" then env.market_price symbolForRow else none
    let entry := row'.price
    let sizeVal :=
      if row'.size ≤ 0 ∧ entry ≠ 0 then
        match row'.size_usd with
        | some u => rdiv u entry
        | none => row'.size
      else row'.size
    let vals : TradeRecord → TradeRecord := fun r0 =>
      let r1 := { r0 with status := Status.closed, reservation_key := none }
      match closingPrice with
      | some c =>
        if sizeVal ≠ 0 then
          let dir : Rat := if upperS row.signal = "BUY" ∨ upperS row.signal = "LONG"
            then 1 else -1
          { r1 with exit_price := some c,
                    realized_pnl := some (rmul (rmul (rsub c entry) sizeVal) dir) }
        else r1
      | none => r1
    { acc with
      ledger := db_update acc.ledger row.id vals
      closed := acc.closed ++ [row.id]
      events := acc.events ++ ["closed"] }

/-- `close_open_positions_for_rotation`: close every `placed` row for the
incoming symbol (all `placed` rows when the symbol is blank), then sweep
resting orders for the affected symbols.  Returns the closed and failed trade
ids together with the updated ledger. -/
def close_open_positions_for_rotation (env : Env) (ledger : List TradeRecord)
    (new_symbol : String) (fallback_price payload_price : Option Rat) :
    RotationOutcome :=
  let rows :=
    if new_symbol ≠ "" then placed_rows_for_symbol ledger new_symbol
    else ledger.filter (fun r => decide (r.status = Status.placed))
  if rows.isEmpty then ⟨[], [], ledger, [], []⟩
  else
    let acc := rows.foldl (rotation_close_row env new_symbol fallback_price payload_price)
      ⟨[], [], ledger, [], []⟩
    let syms := (rows.filterMap (fun r =>
      if r.symbol ≠ "" then some (trimS r.symbol) else none)).dedup
    { acc with calls := acc.calls ++ syms.map ExCall.cancelOrders }

/-! ## The `/webhook` handler -/

/-- The fields of the incoming TradingView JSON body that the handler reads.
The `size_usd`/`sizeUsd`/`sizeUSD` spellings are folded into one field, as are
the leverage and margin synonym keys. -/
structure WebhookPayload where
  event : Option String
  signal_field : Option String
  action_field : Option String
  trade_id : Option String
  symbol_field : Option String
  ticker_field : Option String
  price : Option Rat
  size : Option Rat
  size_usd : Option Rat
  leverage : Option Rat
  margin : Option Rat
  liquidation_price : Option Rat
  pine_idx : Option Int
  deriving Repr

/-- The handler's response: an `HTTPException` status, one of the dict
returns, or the unhandled `TypeError` raised by `current_size <= 0` when the
ledger fallback yields a direction without a size. -/
inductive WebhookResult where
  | httpError (code : Nat)
  | ignoredResp (tmpId : Option String) (reason : String)
  | signalLogged (tradeId : String)
  | exitProcessed
  | placedResp (tradeId : String)
  | errorResp (tradeId : String)
  | typeErrorCrash
  deriving DecidableEq, Repr

/-- Everything one handler run produces: the response, the final ledger, the
broadcast event types in order, and the exchange mutations attempted. -/
structure WebhookOutcome where
  result : WebhookResult
  ledger : List TradeRecord
  events : List String
  calls : List ExCall
  deriving DecidableEq, Repr

/-- Lines 2359–2363: `signal = (payload.signal or payload.action or event or
"").upper()`. -/
def webhook_signal_token (p : WebhookPayload) : String :=
  let raw := (pyOrStr p.signal_field (pyOrStr p.action_field (some ""))).getD ""
  let raw := if raw = "" ∧ truthyStr p.event then p.event.getD "" else raw
  upperS raw

/-- Lines 2386–2411: `(computed_size, p)` — an explicit size, else notional
divided by the stated or fetched price.  The `HTTPException` raised when no
price is available is swallowed by the enclosing `except`, yielding `none`. -/
def webhook_size_and_p (env : Env) (p : WebhookPayload) (symbol : String) :
    Option Rat × Option Rat :=
  match p.size with
  | some s => (some s, none)
  | none =>
    match p.size_usd with
    | some usd =>
      let pLocal := if truthyRat p.price then p.price else env.market_price symbol
      let computed :=
        match pLocal with
        | some pv => if pv ≠ 0 then some (rdiv usd pv) else none
        | none => none
      (computed, pLocal)
    | none => (none, none)

/-- Lines 2414–2419 (and 3055–3056): clamp a computed size up to Bitget's
0.001 minimum contract quantity. -/
def clamp_min_contract (c : Option Rat) : Option Rat :=
  match c with
  | some v => if v < mkRat 1 1000 then some (mkRat 1 1000) else some v
  | none => none

/-- Lines 2422–2430: `price_for_db = price or p or fetched market price`;
`none` models the 502 raised when no price can be resolved. -/
def webhook_price_for_db (env : Env) (p : WebhookPayload) (symbol : String)
    (pLocal : Option Rat) : Option Rat :=
  let pfd := (pyOrRat p.price (some (pLocal.getD 0))).getD 0
  if pfd ≠ 0 then some pfd
  else
    match env.market_price symbol with
    | some f => if f ≠ 0 then some f else none
    | none => none

/-- The tuple returned by `resolve_trade_dimensions`. -/
structure TradeDimensions where
  size_value : Rat
  size_usd_value : Option Rat
  leverage_value : Option Rat
  price_numeric : Option Rat
  deriving DecidableEq, Repr

/-- `resolve_trade_dimensions` with `resolve_leverage` and
`compute_size_usd` inlined. -/
def resolve_trade_dimensions (env : Env) (priceForDb computed explicit
    providedSizeUsd payloadLeverage : Option Rat) : TradeDimensions :=
  let sizeValue := (match computed with | some c => some c | none => explicit).getD 0
  let leverage := match payloadLeverage with
    | some l => some l
    | none => env.default_leverage
  let sizeUsd := match providedSizeUsd with
    | some u => some u
    | none =>
      match priceForDb with
      | some pn => some (rmul sizeValue pn)
      | none => none
  { size_value := sizeValue, size_usd_value := sizeUsd,
    leverage_value := leverage, price_numeric := priceForDb }

/-- Lines 2448–2455: the margin column value, derived from the notional and
leverage when not supplied. -/
def webhook_margin (p : WebhookPayload) (dims : TradeDimensions) : Option Rat :=
  match p.margin with
  | some m => some m
  | none =>
    match dims.size_usd_value, dims.leverage_value with
    | some u, some l => if l ≠ 0 then some (rdiv u l) else none
    | _, _ => none

/-- A log-only row (status `signal`), as inserted by the SIGNAL /
ENTRY_FALLBACK and the non-ENTRY branches. -/
def mk_signal_record (tradeId signal symbol : String) (dims : TradeDimensions)
    (margin liq : Option Rat) (now : Nat) : TradeRecord :=
  { id := tradeId, signal := signal, symbol := symbol,
    price := dims.price_numeric.getD 0, size := dims.size_value,
    size_usd := dims.size_usd_value, leverage := dims.leverage_value,
    margin := margin, liquidation_price := liq, exit_price := none,
    realized_pnl := none, status := Status.signalLog, response := "",
    reservation_key := none, pine_trade_index := none, created_at := now }

/-- The pending row inserted by the ENTRY path (status `received`, reservation
key held). -/
def mk_received_record (tradeId signal symbol : String) (dims : TradeDimensions)
    (margin liq : Option Rat) (key : String) (pineIdx : Option Int) (now : Nat) :
    TradeRecord :=
  { id := tradeId, signal := signal, symbol := symbol,
    price := dims.price_numeric.getD 0, size := dims.size_value,
    size_usd := dims.size_usd_value, leverage := dims.leverage_value,
    margin := margin, liquidation_price := liq, exit_price := none,
    realized_pnl := none, status := Status.received, response := "",
    reservation_key := some key, pine_trade_index := pineIdx, created_at := now }

/-- Lines 2754–2791: place the order and record the outcome.  Every exit —
success, provider/transport error, or a raised exception — rewrites the row
with its final status and a cleared reservation key. -/
def webhook_place_finalize (env : Env) (ledger : List TradeRecord)
    (tradeId symbol side : String) (computedSize : Option Rat) : WebhookOutcome :=
  let calls := [ExCall.placeOrder symbol side computedSize]
  match env.place_raises with
  | some msg =>
    { result := WebhookResult.httpError 500
      ledger := db_update ledger tradeId (fun r =>
        { r with status := Status.error, response := msg, reservation_key := none })
      events := ["error"], calls := calls }
  | none =>
    let ok := order_success env.place_status env.place_parsed
    { result := if ok then WebhookResult.placedResp tradeId
        else WebhookResult.errorResp tradeId
      ledger := db_update ledger tradeId (fun r =>
        { r with status := order_new_status env.place_status env.place_parsed,
                 response := env.raw_response, reservation_key := none })
      events := [if ok then "placed" else "error"], calls := calls }

/-- Lines 2700–2791: insert the `received` row holding the reservation key
(the unique index on `reservation_key` and the primary key on `id` turn a
duplicate into the benign "concurrent reservation" ignore), then place. -/
def webhook_reserve_and_place (env : Env) (ledger : List TradeRecord)
    (events : List String) (calls : List ExCall) (symbol signal2 intended side : String)
    (dims : TradeDimensions) (computedSize margin liq : Option Rat)
    (tradeId : String) (pineIdx : Option Int) : WebhookOutcome :=
  let key := symbol ++ ":" ++ intended
  if ledger.any (fun r => decide (r.id = tradeId) || decide (r.reservation_key = some key)) then
    { result := WebhookResult.ignoredResp (some tradeId) "concurrent reservation"
      ledger := ledger, events := events ++ ["ignored"], calls := calls }
  else
    let newRec := mk_received_record tradeId signal2 symbol dims margin liq key pineIdx env.now
    let ledger := newRec :: ledger
    let tail := webhook_place_finalize env ledger tradeId symbol side computedSize
    { result := tail.result, ledger := tail.ledger,
      events := events ++ ["received"] ++ tail.events, calls := calls ++ tail.calls }

/-- Lines 2659–2698: the duplicate-position ignore (broadcast only, nothing
persisted), the stale-Pine-index ignore, then reservation and placement. -/
def webhook_after_rotation (env : Env) (ledger : List TradeRecord)
    (events : List String) (calls : List ExCall) (p : WebhookPayload)
    (symbol signal2 intended side : String) (dims : TradeDimensions)
    (computedSize margin liq : Option Rat) (curDir : Option String)
    (curSize : Option Rat) : WebhookOutcome :=
  let dupCond := truthyStr curDir && decide (curDir = some intended) &&
    truthyRat curSize && decide (curSize.getD 0 > 0)
  if dupCond then
    let tmpId := (pyOrStr p.trade_id (some env.fresh_id)).getD ""
    { result := WebhookResult.ignoredResp (some tmpId) "already have open position"
      ledger := ledger, events := events ++ ["ignored"], calls := calls }
  else
    let tradeId := (pyOrStr p.trade_id (some env.fresh_id)).getD ""
    let proceed := webhook_reserve_and_place env ledger events calls symbol signal2
      intended side dims computedSize margin liq tradeId p.pine_idx
    match p.pine_idx with
    | some idx =>
      let pines := (ledger.filter (fun r => decide (r.symbol = symbol))).filterMap
        (fun r => r.pine_trade_index)
      let maxPine := pines.foldl (fun acc i =>
        match acc with | none => some i | some a => some (max a i)) none
      match maxPine with
      | some m =>
        if idx < m then
          { result := WebhookResult.ignoredResp (some tradeId) "stale pine trade index"
            ledger := ledger, events := events ++ ["ignored"], calls := calls }
        else proceed
      | none => proceed
    | none => proceed

/-- Lines 2576–2791 (the ENTRY execution path): map the signal to an intended
direction, consult the oracle, rotate when the believed direction opposes the
intent (aborting with a 502 when any close fails), then open. -/
def webhook_entry_execute (env : Env) (ledger : List TradeRecord)
    (p : WebhookPayload) (symbol signal : String) (dims : TradeDimensions)
    (computedSize margin liq : Option Rat) : WebhookOutcome :=
  let intendedSide : Option (String × String) :=
    if signal = "BUY" ∨ signal = "LONG" then some ("long", "buy")
    else if signal = "SELL" ∨ signal = "SHORT" then some ("short", "sell")
    else none
  match intendedSide with
  | none =>
    let ledger' :=
      match p.trade_id with
      | some tid => db_update ledger tid (fun r =>
          { r with status := Status.ignored, response := "Unknown signal",
                   reservation_key := none })
      | none => ledger
    { result := WebhookResult.ignoredResp p.trade_id "unknown signal"
      ledger := ledger', events := ["ignored"], calls := [] }
  | some (intended, side) =>
    let signal2 := if intended = "long" then "LONG" else "SHORT"
    let cur := derive_current_position env.snapshot ledger symbol
    let rotationCond := truthyStr cur.1 && decide (cur.1 ≠ some intended) &&
      truthyRat cur.2 && decide (cur.2.getD 0 > 0)
    if rotationCond then
      let rot := close_open_positions_for_rotation env ledger symbol
        dims.price_numeric p.price
      if rot.failed ≠ [] then
        { result := WebhookResult.httpError 502, ledger := rot.ledger,
          events := rot.events ++ ["error"], calls := rot.calls }
      else webhook_after_rotation env rot.ledger rot.events rot.calls p symbol
        signal2 intended side dims computedSize margin liq cur.1 cur.2
    else
      -- `elif not current_direction or current_size <= 0:` — comparing
      -- `None <= 0` raises an uncaught TypeError
      if truthyStr cur.1 ∧ cur.2 = none then
        { result := WebhookResult.typeErrorCrash, ledger := ledger,
          events := [], calls := [] }
      else webhook_after_rotation env ledger [] [] p symbol signal2 intended side
        dims computedSize margin liq cur.1 cur.2

/-- Lines 2472–2535 (SIGNAL / ENTRY_FALLBACK): log-only handling with the
same duplicate detection as the execution path. -/
def webhook_signal_branch (env : Env) (ledger : List TradeRecord)
    (p : WebhookPayload) (symbol signal : String) (dims : TradeDimensions)
    (margin liq : Option Rat) : WebhookOutcome :=
  let tradeId := (pyOrStr p.trade_id (some env.fresh_id)).getD ""
  let cur := derive_current_position env.snapshot ledger symbol
  let dupCond := truthyStr cur.1 &&
    decide (cur.1 = some (if signal = "LONG" then "long" else "short")) &&
    truthyRat cur.2 && decide (cur.2.getD 0 > 0)
  if dupCond then
    { result := WebhookResult.ignoredResp (some tradeId) "already have open position"
      ledger := ledger, events := ["ignored"], calls := [] }
  else
    { result := WebhookResult.signalLogged tradeId
      ledger := mk_signal_record tradeId signal symbol dims margin liq env.now :: ledger
      events := ["signal"], calls := [] }

/-- The `/webhook` handler, from signal-token derivation to the final ledger
update (authentication and JSON parsing, which precede it, are external
plumbing). -/
def webhook (env : Env) (ledger : List TradeRecord) (p : WebhookPayload) :
    WebhookOutcome :=
  let signal := webhook_signal_token p
  if signal = "BUY" ∨ signal = "SELL" then
    { result := WebhookResult.ignoredResp none
        "Only LONG/SHORT signals are accepted; ignoring BUY/SELL alias"
      ledger := ledger, events := ["ignored"], calls := [] }
  else if signal ≠ "" ∧ signal ≠ "LONG" ∧ signal ≠ "SHORT" then
    { result := WebhookResult.ignoredResp none "unknown signal"
      ledger := ledger, events := ["ignored"], calls := [] }
  else
    let rawSymbol := (pyOrStr p.symbol_field (pyOrStr p.ticker_field (some ""))).getD ""
    let symbol := effective_symbol rawSymbol
    let sp := webhook_size_and_p env p symbol
    let computedSize := clamp_min_contract sp.1
    match webhook_price_for_db env p symbol sp.2 with
    | none =>
      { result := WebhookResult.httpError 502, ledger := ledger,
        events := [], calls := [] }
    | some pfd =>
      let dims := resolve_trade_dimensions env (some pfd) computedSize p.size
        p.size_usd p.leverage
      let margin := webhook_margin p dims
      let liq := p.liquidation_price
      let eventUpper := upperS (p.event.getD "")
      if truthyStr p.event ∧ (eventUpper = "SIGNAL" ∨ eventUpper = "ENTRY_FALLBACK") then
        webhook_signal_branch env ledger p symbol signal dims margin liq
      else if p.event = some "EXIT" then
        match p.trade_id with
        | some tid =>
          { result := WebhookResult.exitProcessed
            ledger := db_update ledger tid (fun r =>
              { r with status := Status.closed, reservation_key := none })
            events := ["closed"], calls := [] }
        | none =>
          { result := WebhookResult.exitProcessed, ledger := ledger,
            events := [], calls := [] }
      else if ¬ (truthyStr p.event ∧ eventUpper = "ENTRY") then
        let tradeId := (pyOrStr p.trade_id (some env.fresh_id)).getD ""
        { result := WebhookResult.signalLogged tradeId
          ledger := mk_signal_record tradeId signal symbol dims margin liq env.now :: ledger
          events := ["signal"], calls := [] }
      else
        webhook_entry_execute env ledger p symbol signal dims computedSize margin liq

/-! ## The `/open-position` handler (fragments the claims reference) -/

/-- Lines 2934–2969 of `open_position`: default a blank signal to BUY, reject
anything but BUY/SELL/LONG/SHORT (`none` models the 400 response), and fold
BUY/LONG to a long intent, SELL/SHORT to a short one.  Returns
`(signal, side, intended_direction)`. -/
def open_position_intent (signal_field : Option String) :
    Option (String × String × String) :=
  let signal := (pyOrStr signal_field (some "")).getD ""
  let signal := if signal = "" then "BUY" else signal
  if upperS signal ≠ "BUY" ∧ upperS signal ≠ "SELL" ∧
      upperS signal ≠ "LONG" ∧ upperS signal ≠ "SHORT" then none
  else if upperS signal = "BUY" ∨ upperS signal = "LONG" then
    some ("LONG", "buy", "long")
  else some ("SHORT", "sell", "short")

/-- Lines 3042–3056 of `open_position`: explicit size, else notional divided
by the fetched market price (a zero price raises and is caught, yielding
`none`), then the 0.001 minimum clamp. -/
def open_position_computed_size (size size_usd : Option Rat) (price : Rat) :
    Option Rat :=
  let computed :=
    match size with
    | some s => some s
    | none =>
      match size_usd with
      | some u => if price ≠ 0 then some (rdiv u price) else none
      | none => none
  clamp_min_contract computed

/-! ## Concrete fixtures used by the evaluation theorems -/

/-- A benign environment: no exchange snapshot, closes accepted, placement
accepted with provider code `00000`. -/
def baseEnv : Env :=
  { snapshot := none
    market_price := fun _ => none
    close_ok := fun _ => true
    close_resp_price := fun _ => none
    place_status := 200
    place_parsed := some (ParsedResp.obj (some "00000") none)
    place_raises := none
    raw_response := "ok"
    default_leverage := some 10
    now := 1
    fresh_id := "uuid-1" }

/-- The spec's end-to-end scenario as an executable ENTRY alert:
direction LONG, instrument BTCUSDT, notional 100, price 50000. -/
def entryLongP : WebhookPayload :=
  { event := some "ENTRY", signal_field := some "LONG", action_field := none
    trade_id := none, symbol_field := some "BTCUSDT", ticker_field := none
    price := some 50000, size := none, size_usd := some 100
    leverage := none, margin := none, liquidation_price := none, pine_idx := none }

/-- The same alert with direction SHORT. -/
def entryShortP : WebhookPayload := { entryLongP with signal_field := some "SHORT" }

/-- The same alert with the BUY alias. -/
def entryBuyP : WebhookPayload := { entryLongP with signal_field := some "BUY" }

/-- The `placed` row that handling `entryLongP` on an empty ledger creates. -/
def placedLongRec : TradeRecord :=
  { id := "uuid-1", signal := "LONG", symbol := "BTCUSDT", price := 50000,
    size := mkRat 1 500, size_usd := some 100, leverage := some 10,
    margin := some 10, liquidation_price := none, exit_price := none,
    realized_pnl := none, status := Status.placed, response := "ok",
    reservation_key := none, pine_trade_index := none, created_at := 1 }

/-- A Bitget snapshot reporting the instrument with a zero position size
(`total = 0`), as the exchange does right after a fill has not yet
propagated or right after a close. -/
def zeroSizeSnap : Snapshot :=
  [("symbol", SnapVal.vstr "BTCUSDT"), ("holdSide", SnapVal.vstr "long"),
   ("total", SnapVal.vnum 0)]

/-- `baseEnv` reporting the zero-size snapshot, with a fresh request id. -/
def zeroSnapEnv : Env := { baseEnv with snapshot := some zeroSizeSnap, fresh_id := "uuid-2", now := 2 }

/-- `baseEnv` with a fresh request id for a follow-up signal. -/
def secondEnv : Env := { baseEnv with fresh_id := "uuid-3", now := 3 }

/-- `baseEnv` whose close orders are all rejected by the exchange. -/
def closeFailEnv : Env := { baseEnv with close_ok := fun _ => false, fresh_id := "uuid-4", now := 4 }

/-! # Theorems -/

theorem radd_eq (a b : Rat) : radd a b = a + b := by
  have ha : ((a.den : ℚ)) ≠ 0 := by exact_mod_cast a.den_nz
  have hb : ((b.den : ℚ)) ≠ 0 := by exact_mod_cast b.den_nz
  rw [radd, Rat.mkRat_eq_div]
  conv_rhs => rw [← Rat.num_div_den a, ← Rat.num_div_den b]
  field_simp

theorem rsub_eq (a b : Rat) : rsub a b = a - b := by
  have ha : ((a.den : ℚ)) ≠ 0 := by exact_mod_cast a.den_nz
  have hb : ((b.den : ℚ)) ≠ 0 := by exact_mod_cast b.den_nz
  rw [rsub, Rat.mkRat_eq_div]
  conv_rhs => rw [← Rat.num_div_den a, ← Rat.num_div_den b]
  field_simp
  ring

theorem rmul_eq (a b : Rat) : rmul a b = a * b := by
  have ha : ((a.den : ℚ)) ≠ 0 := by exact_mod_cast a.den_nz
  have hb : ((b.den : ℚ)) ≠ 0 := by exact_mod_cast b.den_nz
  rw [rmul, Rat.mkRat_eq_div]
  conv_rhs => rw [← Rat.num_div_den a, ← Rat.num_div_den b]
  field_simp

theorem rdiv_eq (a b : Rat) : rdiv a b = a / b := by
  rcases eq_or_ne b 0 with hb0 | hb0
  · subst hb0
    simp [rdiv, Rat.divInt_eq_div]
  · have hbn : ((b.num : ℚ)) ≠ 0 := by exact_mod_cast Rat.num_ne_zero.mpr hb0
    have ha : ((a.den : ℚ)) ≠ 0 := by exact_mod_cast a.den_nz
    have hbd : ((b.den : ℚ)) ≠ 0 := by exact_mod_cast b.den_nz
    rw [rdiv, Rat.divInt_eq_div]
    conv_rhs => rw [← Rat.num_div_den a, ← Rat.num_div_den b]
    rw [div_div_div_eq]
    push_cast
    ring_nf

/-- C6: an order outcome is classified `placed` only when the transport
status is 200 and any (truthy) embedded provider code is the success code
`00000`; a 200 transport carrying a provider error code is classified
`error`, never `placed`. -/
theorem c6_order_response_classification (sc : Nat) (parsed : Option ParsedResp) :
    (order_success sc parsed = true → sc = 200 ∧
      ∀ c, bitget_response_code parsed = some c → c ≠ "" → c = "00000") ∧
    (∀ c, bitget_response_code parsed = some c → c ≠ "" → c ≠ "00000" →
      order_new_status sc parsed = Status.error) := by
  constructor
  · intro h
    unfold order_success at h
    rw [Bool.and_eq_true] at h
    obtain ⟨h1, h2⟩ := h
    refine ⟨by simpa using h1, ?_⟩
    intro c hc hcne
    rw [Bool.or_eq_true] at h2
    rcases h2 with h2 | h2
    · rw [hc] at h2
      simp [truthyStr] at h2
      exact absurd h2 hcne
    · rw [hc] at h2
      simpa using h2
  · intro c hc hcne hcerr
    have hfalse : order_success sc parsed = false := by
      unfold order_success
      rw [hc]
      simp [truthyStr, hcne, hcerr]
    unfold order_new_status
    rw [hfalse]
    simp

theorem c6_order_response_classification_witness :
    order_new_status 200 (some (ParsedResp.obj (some "40001") none)) = Status.error :=
  (c6_order_response_classification 200 (some (ParsedResp.obj (some "40001") none))).2
    "40001" (by decide) (by decide) (by decide)

/-- C8: the executable LONG ENTRY signal for BTCUSDT with notional 100 and
price 50000, on an empty ledger with no exchange position, yields exactly one
Trade Record, broadcast as `received` then `placed`, finishing in status
`placed` with size 1/500 = 100/50000 = 0.002. -/
theorem c8_end_to_end_long_entry :
    (webhook baseEnv [] entryLongP).ledger = [placedLongRec] ∧
    (webhook baseEnv [] entryLongP).events = ["received", "placed"] ∧
    placedLongRec.status = Status.placed ∧
    placedLongRec.size = mkRat 1 500 ∧
    (mkRat 1 500 : Rat) = 100 / 50000 ∧ (mkRat 1 500 : Rat) = 2 / 1000 := by
  refine ⟨by decide, by decide, by decide, by decide, ?_, ?_⟩ <;>
    · rw [Rat.mkRat_eq_div]
      norm_num

/-- C1 (the invariant fails on the code): after a LONG ENTRY has produced a
`placed` BTCUSDT record, a second identical signal arriving while the
exchange reports a zero-size snapshot (normalized but falsy, so the ledger
fallback at line 2612 is skipped) is opened again, leaving two `placed`
records for the instrument. -/
theorem c1_two_placed_records_after_zero_size_snapshot :
    ((webhook zeroSnapEnv (webhook baseEnv [] entryLongP).ledger entryLongP).ledger.filter
        (fun r => decide (r.status = Status.placed ∧ r.symbol = "BTCUSDT"))).length = 2 ∧
    (webhook zeroSnapEnv (webhook baseEnv [] entryLongP).ledger entryLongP).result =
      WebhookResult.placedResp "uuid-2" := by decide

/-- C4 counterexample: a BUY payload is not processed as a LONG intent — the
webhook answers with the BUY/SELL-alias ignore and performs no ledger or
exchange mutation. -/
theorem c4_buy_alias_ignored_not_folded :
    (webhook baseEnv [] entryBuyP).result = WebhookResult.ignoredResp none
      "Only LONG/SHORT signals are accepted; ignoring BUY/SELL alias" ∧
    (webhook baseEnv [] entryBuyP).ledger = [] ∧
    (webhook baseEnv [] entryBuyP).calls = [] := by decide

/-- C4 amended: the webhook rejects the BUY/SELL aliases with an explicit
alias-ignore outcome and every other unrecognized token with an explicit
unknown-signal outcome (never defaulting to a direction); only the manual
open-position endpoint folds BUY to LONG and SELL to SHORT. -/
theorem c4_signal_vocabulary_handling (env : Env) (ledger : List TradeRecord)
    (p : WebhookPayload) :
    (webhook_signal_token p = "BUY" ∨ webhook_signal_token p = "SELL" →
      webhook env ledger p =
        { result := WebhookResult.ignoredResp none
            "Only LONG/SHORT signals are accepted; ignoring BUY/SELL alias",
          ledger := ledger, events := ["ignored"], calls := [] }) ∧
    (webhook_signal_token p ≠ "" → webhook_signal_token p ≠ "LONG" →
      webhook_signal_token p ≠ "SHORT" → webhook_signal_token p ≠ "BUY" →
      webhook_signal_token p ≠ "SELL" →
      webhook env ledger p =
        { result := WebhookResult.ignoredResp none "unknown signal",
          ledger := ledger, events := ["ignored"], calls := [] }) ∧
    open_position_intent (some "BUY") = some ("LONG", "buy", "long") ∧
    open_position_intent (some "SELL") = some ("SHORT", "sell", "short") := by
  refine ⟨?_, ?_, by decide, by decide⟩
  · intro h
    simp only [webhook]
    split
    · rfl
    · next hne => exact absurd h hne
  · intro h1 h2 h3 h4 h5
    simp only [webhook]
    split
    · next ht => exact absurd ht (by tauto)
    · split
      · rfl
      · next hcond => exact absurd ⟨h1, h2, h3⟩ hcond

/-- C5 counterexample: the duplicate same-direction ignore broadcasts an
`ignored` event and mutates nothing — in particular no Trade Record with
status `ignored` is inserted into the ledger. -/
theorem c5_duplicate_ignore_persists_nothing :
    webhook secondEnv [placedLongRec] entryLongP =
      { result := WebhookResult.ignoredResp (some "uuid-3") "already have open position",
        ledger := [placedLongRec], events := ["ignored"], calls := [] } ∧
    ((webhook secondEnv [placedLongRec] entryLongP).ledger.filter
      (fun r => decide (r.status = Status.ignored))).length = 0 := by decide

/-- C5 amended: on both ignore decisions — duplicate same-direction position
and reservation conflict — the engine publishes an `ignored` notification and
performs no exchange mutation, but inserts no Trade Record: the ledger is
returned unchanged. -/
theorem c5_ignore_paths_broadcast_only (env : Env) (ledger : List TradeRecord)
    (events : List String) (calls : List ExCall) (p : WebhookPayload)
    (symbol signal2 intended side : String) (dims : TradeDimensions)
    (cs margin liq : Option Rat) (dir : Option String) (sz : Option Rat)
    (tradeId : String) (pineIdx : Option Int) :
    ((truthyStr dir && decide (dir = some intended) && truthyRat sz &&
        decide (sz.getD 0 > 0)) = true →
      webhook_after_rotation env ledger events calls p symbol signal2 intended side
        dims cs margin liq dir sz =
      { result := WebhookResult.ignoredResp
          (some ((pyOrStr p.trade_id (some env.fresh_id)).getD ""))
          "already have open position",
        ledger := ledger, events := events ++ ["ignored"], calls := calls }) ∧
    (ledger.any (fun r => decide (r.id = tradeId) ||
        decide (r.reservation_key = some (symbol ++ ":" ++ intended))) = true →
      webhook_reserve_and_place env ledger events calls symbol signal2 intended side
        dims cs margin liq tradeId pineIdx =
      { result := WebhookResult.ignoredResp (some tradeId) "concurrent reservation",
        ledger := ledger, events := events ++ ["ignored"], calls := calls }) := by
  constructor
  · intro h
    unfold webhook_after_rotation
    rw [if_pos h]
  · intro h
    unfold webhook_reserve_and_place
    rw [if_pos h]

theorem c5_ignore_paths_witness :
    webhook_after_rotation secondEnv [placedLongRec] [] [] entryLongP "BTCUSDT"
      "LONG" "long" "buy"
      { size_value := mkRat 1 500, size_usd_value := some 100,
        leverage_value := some 10, price_numeric := some 50000 }
      none none none (some "long") (some (mkRat 1 500)) =
    { result := WebhookResult.ignoredResp (some "uuid-3") "already have open position",
      ledger := [placedLongRec], events := ["ignored"], calls := [] } :=
  (c5_ignore_paths_broadcast_only secondEnv [placedLongRec] [] [] entryLongP "BTCUSDT"
    "LONG" "long" "buy"
    { size_value := mkRat 1 500, size_usd_value := some 100,
      leverage_value := some 10, price_numeric := some 50000 }
    none none none (some "long") (some (mkRat 1 500)) "t0" none).1 (by decide)

/-- C10 counterexample: sanitization keeps underscores, so the output is not
purely alphanumeric and `BTC_X` is returned unchanged (the claim predicts the
underscore is stripped and `USDT` appended). -/
theorem c10_underscore_retained :
    sanitize_symbol_for_bitget (some "BTC_X") = "BTC_X" ∧
    "BTC_X".data.all Char.isAlphanum = false := by decide


theorem c4_signal_vocabulary_witness :
    webhook baseEnv [] entryBuyP =
      { result := WebhookResult.ignoredResp none
          "Only LONG/SHORT signals are accepted; ignoring BUY/SELL alias",
        ledger := [], events := ["ignored"], calls := [] } :=
  (c4_signal_vocabulary_handling baseEnv [] entryBuyP).1 (by decide)

/-- C9: when the webhook resolves the contract quantity from a notional
(`size_usd`) and the stated price — or the manual open-position endpoint does
the same — a quotient below 0.001 is clamped to exactly 0.001, the value then
handed to `place_demo_order`.  (`rdiv u pv` is `u / pv` and `mkRat 1 1000` is
`0.001`, as the last two conjuncts record.) -/
theorem c9_min_contract_clamp (env : Env) (p : WebhookPayload) (symbol : String)
    (u pv : Rat) (hsize : p.size = none) (husd : p.size_usd = some u)
    (hp : p.price = some pv) (hpv : pv ≠ 0) (hlt : rdiv u pv < mkRat 1 1000) :
    clamp_min_contract (webhook_size_and_p env p symbol).1 = some (mkRat 1 1000) ∧
    open_position_computed_size none (some u) pv = some (mkRat 1 1000) ∧
    rdiv u pv = u / pv ∧ (mkRat 1 1000 : Rat) = 1 / 1000 := by
  have h1 : (webhook_size_and_p env p symbol).1 = some (rdiv u pv) := by
    simp [webhook_size_and_p, hsize, husd, hp, truthyRat, hpv]
  refine ⟨?_, ?_, rdiv_eq u pv, by rw [Rat.mkRat_eq_div]; norm_num⟩
  · rw [h1]
    simp [clamp_min_contract, hlt]
  · simp [open_position_computed_size, clamp_min_contract, hpv, hlt]

theorem c9_min_contract_clamp_witness :
    clamp_min_contract (webhook_size_and_p baseEnv
      { entryLongP with size_usd := some 1 } "BTCUSDT").1 = some (mkRat 1 1000) :=
  (c9_min_contract_clamp baseEnv { entryLongP with size_usd := some 1 } "BTCUSDT"
    1 50000 (by decide) (by decide) (by decide) (by decide) (by decide)).1

/-- A `db_update` whose patch clears the reservation key leaves every ledger
row either foreign to the updated id or reservation-free. -/
theorem db_update_clears_reservation (L : List TradeRecord) (tid : String)
    (f : TradeRecord → TradeRecord) (hf : ∀ r, (f r).reservation_key = none) :
    ((db_update L tid f).all (fun r =>
      decide (r.id ≠ tid) || decide (r.reservation_key = none))) = true := by
  simp only [db_update, List.all_eq_true, List.mem_map]
  rintro b ⟨r, _, rfl⟩
  by_cases h : r.id = tid
  · simp [h, hf]
  · simp [h]

/-- C7: once the ENTRY path reserves (inserting the `received` row that holds
the reservation key under a fresh trade id), every exit of the placement
stage — provider success, provider/transport error, or a raised exception —
leaves no row with that id still holding a reservation key. -/
theorem c7_reservation_always_released (env : Env) (ledger : List TradeRecord)
    (events : List String) (calls : List ExCall)
    (symbol signal2 intended side : String) (dims : TradeDimensions)
    (cs margin liq : Option Rat) (tradeId : String) (pineIdx : Option Int)
    (hfresh : ledger.all (fun r => decide (r.id ≠ tradeId)) = true) :
    ((webhook_reserve_and_place env ledger events calls symbol signal2 intended side
        dims cs margin liq tradeId pineIdx).ledger.all (fun r =>
      decide (r.id ≠ tradeId) || decide (r.reservation_key = none))) = true := by
  simp only [webhook_reserve_and_place]
  split
  · refine List.all_eq_true.mpr ?_
    intro r hr
    have := List.all_eq_true.mp hfresh r hr
    simp only [Bool.or_eq_true]
    exact Or.inl this
  · show ((webhook_place_finalize env _ tradeId symbol side cs).ledger.all _) = true
    simp only [webhook_place_finalize]
    cases env.place_raises with
    | some msg => exact db_update_clears_reservation _ _ _ (fun r => rfl)
    | none => exact db_update_clears_reservation _ _ _ (fun r => rfl)

theorem c7_reservation_always_released_witness :
    ((webhook_reserve_and_place baseEnv [] [] [] "BTCUSDT" "LONG" "long" "buy"
      { size_value := mkRat 1 500, size_usd_value := some 100,
        leverage_value := some 10, price_numeric := some 50000 }
      none none none "uuid-1" none).ledger.all (fun r =>
      decide (r.id ≠ "uuid-1") || decide (r.reservation_key = none))) = true :=
  c7_reservation_always_released baseEnv [] [] [] "BTCUSDT" "LONG" "long" "buy"
    { size_value := mkRat 1 500, size_usd_value := some 100,
      leverage_value := some 10, price_numeric := some 50000 }
    none none none "uuid-1" none (by decide)

/-- C3 counterexample: with a `placed` LONG record on the ledger, a snapshot
that reports the position with size 0 (an "empty/zero position" report) does
not trigger the ledger fallback: the believed position is `none`, not the
LONG direction and size stored on the record — although the same ledger with
no snapshot at all does fall back. -/
theorem c3_zero_position_snapshot_skips_fallback :
    derive_current_position (some zeroSizeSnap) [placedLongRec] "BTCUSDT" = (none, none) ∧
    placed_rows_for_symbol [placedLongRec] "BTCUSDT" = [placedLongRec] ∧
    upperS placedLongRec.signal = "LONG" ∧ placedLongRec.size = mkRat 1 500 ∧
    derive_current_position none [placedLongRec] "BTCUSDT" =
      (some "long", some (mkRat 1 500)) := by decide

/-- C3 amended: the Position Oracle falls back to the most recent `placed`
record only when the exchange yields no normalized snapshot at all (query
failure, timeout, empty reply) — then the stored signal gives the believed
direction and the stored size (or notional) the believed size; a snapshot
that does normalize suppresses the fallback even when it reports a zero
size (believed position `none`); a positive-size snapshot is trusted
outright, ledger ignored. -/
theorem c3_oracle_fallback_characterization (snap : Snapshot)
    (ledger : List TradeRecord) (symbol : String) :
    (placed_rows_for_symbol ledger symbol = [] →
      derive_current_position none ledger symbol = (none, none)) ∧
    (∀ r rest, placed_rows_for_symbol ledger symbol = r :: rest →
      derive_current_position none ledger symbol =
        (if upperS r.signal = "LONG" then some "long"
         else if upperS r.signal = "SHORT" then some "short" else none,
         pyOrRat (some r.size) (pyOrRat r.size_usd none))) ∧
    (∀ n, normalize_bitget_position snap = some n → n.size = some 0 →
      derive_current_position (some snap) ledger symbol = (none, none)) ∧
    (∀ n sz, normalize_bitget_position snap = some n → n.size = some sz → 0 < sz →
      derive_current_position (some snap) ledger symbol =
        (if lowerS (n.side.getD "") = "long" ∨ lowerS (n.side.getD "") = "buy" then
           some "long"
         else if lowerS (n.side.getD "") = "short" ∨ lowerS (n.side.getD "") = "sell" then
           some "short"
         else none, some sz)) := by
  refine ⟨?_, ?_, ?_, ?_⟩
  · intro hrows
    simp [derive_current_position, truthyStr, truthyRat, hrows]
  · intro r rest hrows
    simp [derive_current_position, truthyStr, truthyRat, hrows]
  · intro n hn hsz
    simp [derive_current_position, hn, hsz]
  · intro n sz hn hsz hpos
    have hne : sz ≠ 0 := ne_of_gt hpos
    simp [derive_current_position, hn, hsz, hne, hpos]

theorem c3_oracle_fallback_witness :
    derive_current_position (some zeroSizeSnap) [placedLongRec] "BTCUSDT" =
      (none, none) :=
  (c3_oracle_fallback_characterization zeroSizeSnap [placedLongRec] "BTCUSDT").2.2.1
    { side := some "long", size := some 0, size_usd := none, unrealized_pnl := none }
    (by decide) (by decide)

/-- Rotation helper: when every close attempt fails, the loop leaves the
ledger untouched, reports every row as failed, and only issues close
attempts. -/
theorem rotation_loop_all_fail (env : Env) (hfail : ∀ tid, env.close_ok tid = false)
    (new_symbol : String) (fp pp : Option Rat) (rows : List TradeRecord)
    (acc : RotationOutcome) :
    (rows.foldl (rotation_close_row env new_symbol fp pp) acc).ledger = acc.ledger ∧
    (rows.foldl (rotation_close_row env new_symbol fp pp) acc).failed =
      acc.failed ++ rows.map (fun r => r.id) ∧
    (rows.foldl (rotation_close_row env new_symbol fp pp) acc).calls =
      acc.calls ++ rows.map (fun r => ExCall.closeOrder r.id) := by
  induction rows generalizing acc with
  | nil => simp
  | cons r rest ih =>
    have hstep : rotation_close_row env new_symbol fp pp acc r =
        { acc with failed := acc.failed ++ [r.id],
                   calls := acc.calls ++ [ExCall.closeOrder r.id] } := by
      simp [rotation_close_row, close_existing_bitget_position, hfail]
    rw [List.foldl_cons, hstep]
    obtain ⟨ih1, ih2, ih3⟩ := ih
      { acc with failed := acc.failed ++ [r.id],
                 calls := acc.calls ++ [ExCall.closeOrder r.id] }
    refine ⟨by simpa using ih1, ?_, ?_⟩
    · rw [ih2]
      simp
    · rw [ih3]
      simp

/-- Rotation helper: with at least one `placed` row for the symbol and every
close rejected, the rotation reports a non-empty failure list, does not touch
the ledger, and attempts no order placement. -/
theorem rotation_all_fail_outcome (env : Env) (ledger : List TradeRecord)
    (symbol : String) (fp pp : Option Rat)
    (hfail : ∀ tid, env.close_ok tid = false) (hsym : symbol ≠ "")
    (hrows : placed_rows_for_symbol ledger symbol ≠ []) :
    (close_open_positions_for_rotation env ledger symbol fp pp).ledger = ledger ∧
    (close_open_positions_for_rotation env ledger symbol fp pp).failed ≠ [] ∧
    ((close_open_positions_for_rotation env ledger symbol fp pp).calls.all
      (fun c => !is_place_call c)) = true := by
  obtain ⟨h1, h2, h3⟩ := rotation_loop_all_fail env hfail symbol fp pp
    (placed_rows_for_symbol ledger symbol) ⟨[], [], ledger, [], []⟩
  unfold close_open_positions_for_rotation
  rw [if_pos hsym, if_neg (by simpa [List.isEmpty_iff] using hrows)]
  refine ⟨by simpa using h1, ?_, ?_⟩
  · simp only [h2]
    simpa using hrows
  · simp only [h3, List.all_append, List.nil_append, Bool.and_eq_true]
    constructor <;>
      · rw [List.all_eq_true]
        intro c hc
        rw [List.mem_map] at hc
        obtain ⟨x, _, rfl⟩ := hc
        rfl

/-- C2: during a rotation (believed position opposite to the intended
direction) in which every close attempt for the `placed` rows of the
instrument fails, the handler aborts with a 502 before opening: the ledger is
returned unchanged (the original rows keep status `placed`) and no order
placement is attempted. -/
theorem c2_rotation_abort_on_close_failure (env : Env) (ledger : List TradeRecord)
    (p : WebhookPayload) (symbol signal : String) (dims : TradeDimensions)
    (cs margin liq : Option Rat) (d : String) (s : Rat)
    (hfail : ∀ tid, env.close_ok tid = false)
    (hsig : signal = "LONG" ∨ signal = "SHORT")
    (hcur : derive_current_position env.snapshot ledger symbol = (some d, some s))
    (hd : d = "long" ∨ d = "short")
    (hopp : d ≠ (if signal = "LONG" then "long" else "short"))
    (hs : 0 < s) (hsym : symbol ≠ "")
    (hrows : placed_rows_for_symbol ledger symbol ≠ []) :
    (webhook_entry_execute env ledger p symbol signal dims cs margin liq).result =
      WebhookResult.httpError 502 ∧
    (webhook_entry_execute env ledger p symbol signal dims cs margin liq).ledger =
      ledger ∧
    ((webhook_entry_execute env ledger p symbol signal dims cs margin liq).calls.all
      (fun c => !is_place_call c)) = true := by
  obtain ⟨hr1, hr2, hr3⟩ := rotation_all_fail_outcome env ledger symbol
    dims.price_numeric p.price hfail hsym hrows
  have hdne : d ≠ "" := by rcases hd with h | h <;> simp [h]
  have hsne : s ≠ 0 := ne_of_gt hs
  rcases hsig with h | h
  · subst h
    have hopp2 : d ≠ "long" := by simpa using hopp
    simp [webhook_entry_execute, hcur, truthyStr, truthyRat, hdne, hsne, hopp2,
      hs, hr1, hr2, hr3]
  · subst h
    have hopp2 : d ≠ "short" := by simpa using hopp
    simp [webhook_entry_execute, hcur, truthyStr, truthyRat, hdne, hsne, hopp2,
      hs, hr1, hr2, hr3]

theorem c2_rotation_abort_witness :
    (webhook_entry_execute closeFailEnv [placedLongRec] entryShortP "BTCUSDT" "SHORT"
      { size_value := mkRat 1 500, size_usd_value := some 100,
        leverage_value := some 10, price_numeric := some 50000 }
      (some (mkRat 1 500)) (some 10) none).result = WebhookResult.httpError 502 :=
  (c2_rotation_abort_on_close_failure closeFailEnv [placedLongRec] entryShortP
    "BTCUSDT" "SHORT"
    { size_value := mkRat 1 500, size_usd_value := some 100,
      leverage_value := some 10, price_numeric := some 50000 }
    (some (mkRat 1 500)) (some 10) none "long" (mkRat 1 500)
    (fun _ => rfl) (Or.inr rfl) (by decide) (Or.inl rfl) (by decide) (by decide)
    (by decide) (by decide)).1

/-- Uppercasing fixes every character the sanitization filter keeps. -/
theorem toUpper_of_isSymChar (c : Char) (h : isSymChar c = true) : c.toUpper = c := by
  unfold isSymChar at h
  simp only [Bool.or_eq_true, Bool.and_eq_true, decide_eq_true_eq] at h
  unfold Char.toUpper
  rw [if_neg]
  rintro ⟨h1, _⟩
  rcases h with (⟨_, hb⟩ | ⟨_, hb⟩) | hu <;> omega

/-- `str.upper()` is the identity on strings of filter-surviving characters. -/
theorem upperS_of_all_sym (s : String) (h : s.data.all isSymChar = true) :
    upperS s = s := by
  unfold upperS
  rw [List.all_eq_true] at h
  have hmap : s.data.map Char.toUpper = s.data := by
    rw [List.map_congr_left (fun a ha => toUpper_of_isSymChar a (h a ha))]
    exact List.map_id _
  rw [hmap]

/-- Appending `USDT` yields a string that ends with `USDT`. -/
theorem endsWithS_append_usdt (s : String) : endsWithS (s ++ "USDT") "USDT" = true := by
  unfold endsWithS
  rw [List.isSuffixOf_iff_suffix]
  rw [show (s ++ "USDT").data = s.data ++ "USDT".data from rfl]
  exact List.suffix_append _ _

/-- The sanitization tail keeps the output inside the `[A-Z0-9_]` class. -/
theorem sanitize_finish_all_sym (c : String) (hc : c.data.all isSymChar = true) :
    ((sanitize_finish c).data.all isSymChar) = true := by
  unfold sanitize_finish
  split
  · exact hc
  · split
    · rw [show (c ++ "USDT").data = c.data ++ "USDT".data from rfl, List.all_append,
        Bool.and_eq_true]
      exact ⟨hc, by decide⟩
    · exact hc

/-- A non-empty, purely alphabetic sanitization output ends in `USDT`. -/
theorem sanitize_finish_alpha_suffix (c : String) (hc : c.data.all isSymChar = true)
    (hne : sanitize_finish c ≠ "")
    (hal : (sanitize_finish c).data.all Char.isAlpha = true) :
    endsWithS (sanitize_finish c) "USDT" = true := by
  unfold sanitize_finish at *
  by_cases h1 : (decide (c ≠ "") && endsWithS (upperS c) "USDT") = true
  · rw [if_pos h1] at *
    rw [upperS_of_all_sym c hc, Bool.and_eq_true] at h1
    exact h1.2
  · rw [if_neg h1] at *
    by_cases h2 : (decide (c ≠ "") && c.toList.all Char.isAlpha) = true
    · rw [if_pos h2] at *
      exact endsWithS_append_usdt c
    · rw [if_neg h2] at *
      refine absurd ?_ h2
      rw [Bool.and_eq_true]
      exact ⟨by simpa using hne, by simpa using hal⟩

/-- C10 amended: sanitization keeps exactly the uppercase letters, digits and
underscores of the (de-prefixed, de-suffixed, uppercased) input — underscores
are retained, not stripped — and whenever the result is non-empty and purely
alphabetic it ends in `USDT` (so `BTC` becomes `BTCUSDT`, and venue marks,
slashes and the perpetual `.P` suffix are removed as in
`BITGET:ETH/USDT.P` ↦ `ETHUSDT`). -/
theorem c10_sanitize_characterization (v : Option String) :
    ((sanitize_symbol_for_bitget v).data.all isSymChar) = true ∧
    (sanitize_symbol_for_bitget v ≠ "" →
      ((sanitize_symbol_for_bitget v).data.all Char.isAlpha) = true →
      endsWithS (sanitize_symbol_for_bitget v) "USDT" = true) ∧
    sanitize_symbol_for_bitget (some "BTC") = "BTCUSDT" ∧
    sanitize_symbol_for_bitget (some "BITGET:ETH/USDT.P") = "ETHUSDT" := by
  have hshape : ∃ t : List Char,
      sanitize_symbol_for_bitget v = sanitize_finish (String.mk (t.filter isSymChar)) :=
    ⟨_, rfl⟩
  obtain ⟨t, ht⟩ := hshape
  have hc : (String.mk (t.filter isSymChar)).data.all isSymChar = true := by
    rw [List.all_eq_true]
    intro c hcm
    exact (List.mem_filter.mp hcm).2
  refine ⟨?_, ?_, by decide, by decide⟩
  · rw [ht]
    exact sanitize_finish_all_sym _ hc
  · rw [ht]
    intro h1 h2
    exact sanitize_finish_alpha_suffix _ hc h1 h2

theorem c10_sanitize_characterization_witness :
    endsWithS (sanitize_symbol_for_bitget (some "BTC")) "USDT" = true :=
  (c10_sanitize_characterization (some "BTC")).2.1 (by decide) (by decide)

end CAPI
